import Mathlib

/-!
Shallow embedding of the distributed-vec-env controller/worker core
(src/distributed_vec_env/server/server_connection.py,
 src/distributed_vec_env/server/server_configuration.py,
 src/distributed_vec_env/client/client_base.py,
 src/distributed_vec_env/client/env_client.py).

Python dicts with Nat keys/values are modelled as association lists with
the dict update/delete/lookup semantics; numpy int64 arithmetic is
modelled on Int with explicit two's-complement wrap; pickled payloads and
serialized numpy arrays are opaque Nat tokens; sockets/logging are elided
except where a claim is about them (the missing `verbosity` attribute of
ServerConfiguration is modelled explicitly from the source).
-/

namespace DVE

/-- Lookup in a Python-dict model: value of the first matching key. -/
def alookup : List (Nat × Nat) → Nat → Option Nat
  | [], _ => none
  | (k, v) :: rest, key => if k = key then some v else alookup rest key

/-- Dict assignment `d[k] = v`: replace the binding if the key is present,
otherwise append a fresh binding. -/
def ainsert : List (Nat × Nat) → Nat → Nat → List (Nat × Nat)
  | [], k, v => [(k, v)]
  | (k0, v0) :: rest, k, v =>
      if k0 = k then (k, v) :: rest else (k0, v0) :: ainsert rest k v

/-- Dict deletion `del d[k]`: drop the first binding of the key. -/
def aerase : List (Nat × Nat) → Nat → List (Nat × Nat)
  | [], _ => []
  | (k0, v0) :: rest, k => if k0 = k then rest else (k0, v0) :: aerase rest k

/-- Key list of a dict model. -/
def akeys (m : List (Nat × Nat)) : List Nat := m.map Prod.fst

@[simp] theorem akeys_nil : akeys [] = [] := rfl

@[simp] theorem akeys_cons (k v : Nat) (m : List (Nat × Nat)) :
    akeys ((k, v) :: m) = k :: akeys m := rfl

theorem alookup_eq_none_of_not_mem {m : List (Nat × Nat)} {a : Nat}
    (h : a ∉ akeys m) : alookup m a = none := by
  induction m with
  | nil => rfl
  | cons p rest ih =>
      obtain ⟨k0, v0⟩ := p
      simp only [akeys_cons, List.mem_cons] at h
      push_neg at h
      simp only [alookup]
      rw [if_neg (fun hc => h.1 hc.symm), ih h.2]

theorem mem_akeys_of_alookup {m : List (Nat × Nat)} {a v : Nat}
    (h : alookup m a = some v) : a ∈ akeys m := by
  induction m with
  | nil => simp [alookup] at h
  | cons p rest ih =>
      obtain ⟨k0, v0⟩ := p
      simp only [alookup] at h
      by_cases hk : k0 = a
      · simp [hk]
      · rw [if_neg hk] at h
        simp only [akeys_cons, List.mem_cons]
        exact Or.inr (ih h)

theorem alookup_ainsert (m : List (Nat × Nat)) (k v key : Nat) :
    alookup (ainsert m k v) key = if k = key then some v else alookup m key := by
  induction m with
  | nil => simp [ainsert, alookup]
  | cons p rest ih =>
      obtain ⟨k0, v0⟩ := p
      by_cases hk : k0 = k
      · subst hk
        by_cases hkey : k0 = key
        · subst hkey; simp [ainsert, alookup]
        · simp [ainsert, alookup, hkey]
      · by_cases hkey : k0 = key
        · subst hkey
          have hne : ¬ k = k0 := fun h => hk h.symm
          simp [ainsert, alookup, hk, hne]
        · simp [ainsert, alookup, hk, hkey, ih]

theorem mem_akeys_ainsert (m : List (Nat × Nat)) (k v a : Nat) :
    a ∈ akeys (ainsert m k v) ↔ a = k ∨ a ∈ akeys m := by
  induction m with
  | nil => simp [ainsert]
  | cons p rest ih =>
      obtain ⟨k0, v0⟩ := p
      simp only [ainsert]
      by_cases hk : k0 = k
      · rw [if_pos hk]
        subst hk
        simp only [akeys_cons, List.mem_cons]
        tauto
      · rw [if_neg hk]
        simp only [akeys_cons, List.mem_cons] at ih ⊢
        rw [ih]
        tauto

theorem nodup_akeys_ainsert {m : List (Nat × Nat)} (k v : Nat)
    (h : (akeys m).Nodup) : (akeys (ainsert m k v)).Nodup := by
  induction m with
  | nil => simp [ainsert]
  | cons p rest ih =>
      obtain ⟨k0, v0⟩ := p
      simp only [akeys_cons, List.nodup_cons] at h
      simp only [ainsert]
      by_cases hk : k0 = k
      · rw [if_pos hk]
        subst hk
        simp only [akeys_cons, List.nodup_cons]
        exact ⟨h.1, h.2⟩
      · rw [if_neg hk]
        simp only [akeys_cons, List.nodup_cons]
        constructor
        · intro hmem
          rcases (mem_akeys_ainsert rest k v k0).mp hmem with h1 | h1
          · exact hk h1
          · exact h.1 h1
        · exact ih h.2

theorem aerase_sublist (m : List (Nat × Nat)) (k : Nat) :
    List.Sublist (aerase m k) m := by
  induction m with
  | nil => simp [aerase]
  | cons p rest ih =>
      obtain ⟨k0, v0⟩ := p
      simp only [aerase]
      by_cases hk : k0 = k
      · rw [if_pos hk]
        exact List.sublist_cons_self (k0, v0) rest
      · rw [if_neg hk]
        exact List.Sublist.cons₂ (k0, v0) ih

theorem nodup_akeys_aerase {m : List (Nat × Nat)} (k : Nat)
    (h : (akeys m).Nodup) : (akeys (aerase m k)).Nodup :=
  List.Nodup.sublist (List.Sublist.map Prod.fst (aerase_sublist m k)) h

theorem alookup_aerase {m : List (Nat × Nat)} (k key : Nat)
    (h : (akeys m).Nodup) :
    alookup (aerase m k) key = if k = key then none else alookup m key := by
  induction m with
  | nil => simp [aerase, alookup]
  | cons p rest ih =>
      obtain ⟨k0, v0⟩ := p
      simp only [akeys_cons, List.nodup_cons] at h
      simp only [aerase]
      by_cases hk : k0 = k
      · rw [if_pos hk]
        subst hk
        by_cases hkey : k0 = key
        · subst hkey
          simp [alookup_eq_none_of_not_mem h.1]
        · simp [alookup, hkey]
      · rw [if_neg hk]
        simp only [alookup]
        by_cases hkey : k0 = key
        · subst hkey
          have hne : ¬ k = k0 := fun hc => hk hc.symm
          simp [hne]
        · simp [hkey, ih h.2]

theorem ainsert_ainsert_same (m : List (Nat × Nat)) (k v : Nat) :
    ainsert (ainsert m k v) k v = ainsert m k v := by
  induction m with
  | nil => simp [ainsert]
  | cons p rest ih =>
      obtain ⟨k0, v0⟩ := p
      by_cases hk : k0 = k
      · simp [ainsert, hk]
      · simp [ainsert, hk, ih]

/-! ### Wire schema (messages/protocol_pb2): proto3 scalars read as their
zero default when unset; opaque byte blobs are Nat tokens. -/

/-- WorkerCommand.command enum. -/
inductive CommandKind
  | step | reset | close | resetClient | wakeUp | noCommand
deriving DecidableEq, Repr

/-- WorkerCommand message; actions is the opaque pickled actions blob. -/
structure WorkerCommand where
  command : CommandKind
  nonce : Int
  actions : Option Nat
  instance_id : Int
deriving DecidableEq, Repr

/-- Frame message: observation is a serialized-array token, info a pickled token. -/
structure Frame where
  observation : Nat
  reward : Int
  done : Bool
  info : Nat
  nonce : Int
deriving DecidableEq, Repr

/-- MasterRequest.command enum. -/
inductive RequestKind
  | initRequest | connectRequest | frameRequest | heartbeatRequest
deriving DecidableEq, Repr

/-- Default (unset) frame payload of a MasterRequest. -/
def defaultFrame : Frame := Frame.mk 0 0 false 0 0

/-- MasterRequest message; connect_payload is the opaque pickled spaces token. -/
structure MasterRequest where
  command : RequestKind
  client_id : Nat
  instance_id : Int
  connect_payload : Nat
  frame : Frame
deriving DecidableEq, Repr

/-- MasterResponse.response enum. -/
inductive ResponseKind
  | ok | okEncourage | wait | resetResponse | softError | errorResponse
deriving DecidableEq, Repr

/-- NameResponse message. -/
structure NameResponse where
  name : String
  seed : Nat
  server_version : Nat
  client_id : Nat
  instance_id : Int
  reset_compensation : Bool
deriving DecidableEq, Repr

/-- ConnectResponse message. -/
structure ConnectResponse where
  environment_id : Nat
  last_command : Option WorkerCommand
deriving DecidableEq, Repr

/-- MasterResponse message. -/
structure MasterResponse where
  response : ResponseKind
  name_response : Option NameResponse
  connect_response : Option ConnectResponse
deriving DecidableEq, Repr

/-! ### server_configuration.py / client_configuration.py -/

/-- ServerConfiguration fields assigned in __init__ (the logger object is
elided as an opaque capability). -/
structure ServerConfiguration where
  server_url : String
  command_port : Nat
  request_port : Nat
  number_of_environments : Nat
  linger_period : Nat
  environment_name : String
  server_version : Nat
  timeout : Nat
  reset_compensation : Bool
deriving DecidableEq, Repr

/-- Attribute names ServerConfiguration.__init__ assigns on self, in source
order (server_configuration.py lines 9-24). -/
def serverConfigurationAttributeNames : List String :=
  ["server_url", "command_port", "request_port", "number_of_environments",
   "linger_period", "environment_name", "server_version", "timeout",
   "logger", "reset_compensation"]

/-- Attribute names ClientConfiguration.__init__ assigns on self, in source
order (client_configuration.py lines 9-23). -/
def clientConfigurationAttributeNames : List String :=
  ["server_url", "command_port", "request_port", "server_version", "timeout",
   "wait_period", "linger_period", "polling_limit", "logger", "verbosity"]

/-- Python attribute read on a configuration object: succeeds exactly when
__init__ assigned the attribute, otherwise AttributeError. -/
def getConfigAttribute (attrs : List String) (a : String) : Except String String :=
  if attrs.contains a then Except.ok a else Except.error "AttributeError"

/-- The self.configuration.verbosity read performed by
ServerConnection.initialize (server_connection.py line 102) and every
verbosity-guarded branch of the request handlers. -/
def serverVerbosityRead : Except String String :=
  getConfigAttribute serverConfigurationAttributeNames "verbosity"

/-! ### numpy int64 arithmetic -/

/-- Two's-complement wrap of a numpy int64 value. -/
def wrap64 (n : Int) : Int := (n + 2 ^ 63) % 2 ^ 64 - 2 ^ 63

/-- numpy int64 addition, as in self.last_command_nonce += 1. -/
def int64Add (a b : Int) : Int := wrap64 (a + b)

/-! ### server_connection.py : ServerConnection -/

/-- Exceptions raised by ServerConnection methods. -/
inductive ServerError
  | handlerError
  | closedError
deriving DecidableEq, Repr

/-- Mutable fields of a ServerConnection object. `published` is a ghost log
of every message sent on the command socket; `sockets_closed` records the
socket close calls of close_environments. -/
structure ServerState where
  configuration : ServerConfiguration
  instance_id : Int
  last_client_id_assigned : Nat
  observation_space : Option Nat
  action_space : Option Nat
  is_closed : Bool
  client_env_map : List (Nat × Nat)
  env_client_map : List (Nat × Nat)
  prev_observation_buffer : List (Option Nat)
  observation_buffer : List (Option Nat)
  reward_buffer : List (Option Int)
  done_buffer : List (Option Bool)
  info_buffer : List (Option Nat)
  last_command_nonce : Int
  command_nonce : Option Int
  last_command : Option WorkerCommand
  published : List WorkerCommand
  sockets_closed : Bool
deriving DecidableEq, Repr

/-- ServerConnection.__init__ (sockets and logger elided; instance_id is the
random int64 drawn by numpy_util.random_int64, passed as a parameter). -/
def mkServer (cfg : ServerConfiguration) (inst : Int) : ServerState :=
  ServerState.mk cfg inst 0 none none false [] []
    (List.replicate cfg.number_of_environments none)
    (List.replicate cfg.number_of_environments none)
    (List.replicate cfg.number_of_environments none)
    (List.replicate cfg.number_of_environments none)
    (List.replicate cfg.number_of_environments none)
    0 none none [] false

/-- Property number_of_clients. -/
def numberOfClients (s : ServerState) : Nat := s.configuration.number_of_environments

/-- Property connected_clients. -/
def connectedClients (s : ServerState) : Nat := s.client_env_map.length

/-- Method _reset_frame_buffer. -/
def resetFrameBuffer (s : ServerState) : ServerState :=
  { s with
    prev_observation_buffer := s.observation_buffer,
    observation_buffer := List.replicate (numberOfClients s) none,
    reward_buffer := List.replicate (numberOfClients s) none,
    done_buffer := List.replicate (numberOfClients s) none }

/-- Method _is_frame_buffer_ready. -/
def isFrameBufferReady (s : ServerState) : Bool :=
  s.observation_buffer.all Option.isSome

/-- Method _publish_command. -/
def publishCommand (s : ServerState) (c : WorkerCommand) (remember : Bool) : ServerState :=
  let s1 := if remember then { s with command_nonce := some c.nonce, last_command := some c }
            else s
  { s1 with published := s1.published ++ [c] }

/-- Method _send_wake_up_call: a WAKE_UP with every other field left at its
proto default, published with remember=False. -/
def sendWakeUpCall (s : ServerState) : ServerState :=
  publishCommand s (WorkerCommand.mk CommandKind.wakeUp 0 none 0) false

/-- numpy_util.deserialize_numpy on an opaque array token. -/
def deserializeNumpy (x : Nat) : Nat := x

/-- pickle.loads on an opaque info token. -/
def unpickle (x : Nat) : Nat := x

/-- Method _handle_initialize_request: reply OK with the NameResponse, then
bump the monotonically increasing client counter. -/
def handleInitializeRequest (s : ServerState) : MasterResponse × ServerState :=
  (MasterResponse.mk ResponseKind.ok
     (some (NameResponse.mk s.configuration.environment_name
        s.last_client_id_assigned s.configuration.server_version
        s.last_client_id_assigned s.instance_id
        s.configuration.reset_compensation))
     none,
   { s with last_client_id_assigned := s.last_client_id_assigned + 1 })

/-- The scan in _map_new_env for the lowest env id not in env_client_map. -/
def findFreeEnv (s : ServerState) : Option Nat :=
  (List.range (numberOfClients s)).find? (fun i => (alookup s.env_client_map i).isNone)

/-- Method _map_new_env; none models the RuntimeError raised when every
slot is busy. -/
def mapNewEnv (s : ServerState) (client_id : Nat) : Option (Nat × ServerState) :=
  match findFreeEnv s with
  | some i =>
      some (i, { s with env_client_map := ainsert s.env_client_map i client_id,
                        client_env_map := ainsert s.client_env_map client_id i })
  | none => none

/-- Method _unregister_env. -/
def unregisterEnv (s : ServerState) (env_id : Nat) : ServerState :=
  match alookup s.env_client_map env_id with
  | some client_id =>
      { s with env_client_map := aerase s.env_client_map env_id,
               client_env_map := aerase s.client_env_map client_id }
  | none => s

/-- The space-caching prelude of _handle_connect_request: on the first
connect, unpickle and cache the observation/action space descriptors. -/
def cacheSpaces (s : ServerState) (req : MasterRequest) : ServerState :=
  if s.observation_space.isNone || s.action_space.isNone then
    { s with observation_space := some req.connect_payload,
             action_space := some req.connect_payload }
  else s

/-- Method _handle_connect_request; the first component is the reply sent on
the request socket (none when _map_new_env raised instead of replying).
The handler assigns both map entries a second time after _map_new_env
(server_connection.py lines 309-310), which is modelled verbatim. -/
def handleConnectRequest (s : ServerState) (req : MasterRequest) :
    Option MasterResponse × ServerState :=
  let s0 := cacheSpaces s req
  if connectedClients s0 < numberOfClients s0 then
    match mapNewEnv s0 req.client_id with
    | some (new_environment_id, s1) =>
        let resp :=
          match s1.last_command with
          | some lc =>
              MasterResponse.mk ResponseKind.okEncourage none
                (some (ConnectResponse.mk new_environment_id (some lc)))
          | none =>
              MasterResponse.mk ResponseKind.ok none
                (some (ConnectResponse.mk new_environment_id none))
        let s2 := { s1 with
          client_env_map := ainsert s1.client_env_map req.client_id new_environment_id,
          env_client_map := ainsert s1.env_client_map new_environment_id req.client_id }
        (some resp, s2)
    | none => (none, s0)
  else
    (some (MasterResponse.mk ResponseKind.wait none none), s0)

/-- Method _handle_frame_request. A none reply models the Python KeyError
when client_env_map holds the client but env_client_map lacks the slot
(the consistency test dereferences env_client_map directly). -/
def handleFrameRequest (s : ServerState) (req : MasterRequest) :
    Option MasterResponse × ServerState :=
  let frame := req.frame
  match alookup s.client_env_map req.client_id with
  | none => (some (MasterResponse.mk ResponseKind.errorResponse none none), s)
  | some environment_id =>
      match alookup s.env_client_map environment_id with
      | none => (none, s)
      | some occupant =>
          if occupant ≠ req.client_id then
            (some (MasterResponse.mk ResponseKind.errorResponse none none), s)
          else if some frame.nonce ≠ s.command_nonce then
            (some (MasterResponse.mk ResponseKind.softError none none), s)
          else
            let s1 := { s with
              observation_buffer :=
                s.observation_buffer.set environment_id
                  (some (deserializeNumpy frame.observation)),
              reward_buffer := s.reward_buffer.set environment_id (some frame.reward),
              done_buffer := s.done_buffer.set environment_id (some frame.done),
              info_buffer := s.info_buffer.set environment_id (some (unpickle frame.info)) }
            if frame.done && s1.configuration.reset_compensation then
              let s2 := unregisterEnv s1 environment_id
              (some (MasterResponse.mk ResponseKind.resetResponse none none),
               sendWakeUpCall s2)
            else
              (some (MasterResponse.mk ResponseKind.ok none none), s1)

/-- One iteration of _communication_loop: the optional event is the request
delivered by the poll; the first component is the reply sent, if any. -/
def communicationLoop (s : ServerState) (event : Option MasterRequest) :
    Option MasterResponse × ServerState :=
  match event with
  | none => (none, s)
  | some request =>
      if request.command ≠ RequestKind.initRequest ∧ request.instance_id ≠ s.instance_id then
        (some (MasterResponse.mk ResponseKind.errorResponse none none), s)
      else
        match request.command with
        | RequestKind.initRequest =>
            let r := handleInitializeRequest s
            (some r.1, r.2)
        | RequestKind.connectRequest => handleConnectRequest s request
        | RequestKind.frameRequest => handleFrameRequest s request
        | RequestKind.heartbeatRequest =>
            (some (MasterResponse.mk ResponseKind.ok none none), s)

/-- Method _communication_timeout: unregister the still-empty mapped slots. -/
def communicationTimeout (s : ServerState) : ServerState :=
  (List.range s.observation_buffer.length).foldl
    (fun acc idx =>
      if (acc.observation_buffer.getD idx none) = none ∧
         (alookup acc.env_client_map idx).isSome = true
      then unregisterEnv acc idx
      else acc)
    s

/-- A poll round of the gather_frames loop: the request delivered (if any)
and whether the step-level timeout had elapsed by the end of the round. -/
abbrev GatherEvent := Option MasterRequest × Bool

/-- The batch assembled by gather_frames. -/
structure GatherResult where
  obs : List Nat
  rews : List Int
  dones : List Bool
  infos : List (Option Nat)
deriving DecidableEq, Repr

/-- Collapse a buffer of optional cells; none when any cell is still unset. -/
def seqOptions {α : Type} : List (Option α) → Option (List α)
  | [] => some []
  | none :: _ => none
  | some x :: rest => (seqOptions rest).map (fun l => x :: l)

/-- The np.stack extraction in gather_frames; none models stacking a buffer
that still contains an unset cell. -/
def stackBuffers (s : ServerState) : Option GatherResult :=
  match seqOptions s.observation_buffer, seqOptions s.reward_buffer,
        seqOptions s.done_buffer with
  | some o, some r, some d => some (GatherResult.mk o r d s.info_buffer)
  | _, _, _ => none

/-- Exit path of gather_frames: clear last_command, stack the buffers,
then reset the frame buffer. -/
def gatherFinish (s : ServerState) : Option GatherResult × ServerState :=
  let s1 := { s with last_command := none }
  (stackBuffers s1, resetFrameBuffer s1)

/-- One body iteration of the gather_frames while loop: a communication
round on the given event, then the timeout branch when the step-level
timeout has elapsed. -/
def gatherStep (s : ServerState) (e : GatherEvent) : ServerState :=
  let s1 := (communicationLoop s e.1).2
  if e.2 then communicationTimeout s1 else s1

/-- The gather_frames while loop over a finite schedule of poll rounds; a
none result means the schedule ended with the buffer still not ready (the
real loop keeps blocking). -/
def gatherLoop : List GatherEvent → ServerState → Option GatherResult × ServerState
  | [], s => if isFrameBufferReady s then gatherFinish s else (none, s)
  | e :: rest, s =>
      if isFrameBufferReady s then gatherFinish s
      else gatherLoop rest (gatherStep s e)

/-- Method gather_frames. -/
def gatherFrames (s : ServerState) (events : List GatherEvent) :
    Except ServerError (Option GatherResult) × ServerState :=
  if s.is_closed then (Except.error ServerError.closedError, s)
  else
    let r := gatherLoop events s
    (Except.ok r.1, r.2)

/-- Method send_client_reset. -/
def sendClientReset (s : ServerState) : ServerState :=
  let command := WorkerCommand.mk CommandKind.resetClient s.last_command_nonce none
    s.instance_id
  let s1 := { s with last_command_nonce := int64Add s.last_command_nonce 1 }
  publishCommand s1 command true

/-- Method reset_environments: publish RESET, clear the frame buffer, then
gather_frames and return the observations. -/
def resetEnvironments (s : ServerState) (events : List GatherEvent) :
    Except ServerError (Option (List Nat)) × ServerState :=
  if s.is_closed then (Except.error ServerError.closedError, s)
  else
    let command := WorkerCommand.mk CommandKind.reset s.last_command_nonce none 0
    let s1 := { s with last_command_nonce := int64Add s.last_command_nonce 1 }
    let s2 := resetFrameBuffer (publishCommand s1 command true)
    match gatherFrames s2 events with
    | (Except.ok res, s3) => (Except.ok (res.map GatherResult.obs), s3)
    | (Except.error e, s3) => (Except.error e, s3)

/-- Method send_actions: publish STEP carrying the pickled actions token,
then clear the frame buffer. -/
def sendActions (s : ServerState) (actions : Nat) :
    Except ServerError Unit × ServerState :=
  if s.is_closed then (Except.error ServerError.closedError, s)
  else
    let command := WorkerCommand.mk CommandKind.step s.last_command_nonce (some actions) 0
    let s1 := { s with last_command_nonce := int64Add s.last_command_nonce 1 }
    (Except.ok (), resetFrameBuffer (publishCommand s1 command true))

/-- Method close_environments: mark closed, publish CLOSE, close sockets. -/
def closeEnvironments (s : ServerState) :
    Except ServerError Unit × ServerState :=
  if s.is_closed then (Except.error ServerError.closedError, s)
  else
    let s0 := { s with is_closed := true }
    let command := WorkerCommand.mk CommandKind.close s0.last_command_nonce none 0
    let s1 := { s0 with last_command_nonce := int64Add s0.last_command_nonce 1 }
    let s2 := publishCommand s1 command true
    (Except.ok (), { s2 with sockets_closed := true })

/-- The handshake loop of initialize over a finite schedule; none result
means the schedule ended before number_of_clients workers connected. -/
def initLoop : List (Option MasterRequest) → ServerState →
    Option (Option Nat × Option Nat) × ServerState
  | [], s =>
      if connectedClients s < numberOfClients s then (none, s)
      else (some (s.observation_space, s.action_space), s)
  | e :: rest, s =>
      if connectedClients s < numberOfClients s then
        initLoop rest (communicationLoop s e).2
      else (some (s.observation_space, s.action_space), s)

/-- Method initialize (its verbosity-guarded logging is modelled separately
by serverVerbosityRead because ServerConfiguration never assigns the
attribute that the guard reads). -/
def initServer (s : ServerState) (events : List (Option MasterRequest)) :
    Except ServerError (Option (Option Nat × Option Nat)) × ServerState :=
  if 0 < connectedClients s then (Except.error ServerError.handlerError, s)
  else if s.is_closed then (Except.error ServerError.closedError, s)
  else
    let s1 := sendClientReset s
    let r := initLoop events s1
    (Except.ok r.1, r.2)

/-! ### client_base.py / env_client.py : the worker -/

/-- Worker-side environment operations, kept as a ghost log. -/
inductive EnvOp
  | stepCall (actions_payload : Nat) (env_id : Nat)
  | resetCall
  | closeCall
deriving DecidableEq, Repr

/-- Mutable fields of a ClientBase object (sockets and logger elided; the
server_config and last_command fields are assigned once to None and never
read, so they are dropped). is_idle is three-valued in the source
(False/True/None), modelled as Option Bool with none for Python None. -/
structure WorkerState where
  is_initialized : Bool
  client_id : Option Nat
  server_instance_id : Option Int
  environment_name : Option String
  environment_seed : Option Nat
  environment_id : Option Nat
  command_nonce : Option Int
  unsuccessful_poll_count : Nat
  is_idle : Option Bool
  idle_timestamp : Option Nat
  was_just_reset : Bool
  reset_frame : Option Frame
  reset_compensation : Bool
deriving DecidableEq, Repr

/-- ClientBase.initialization_routine. -/
def initializationRoutine : WorkerState :=
  WorkerState.mk false none none none none none none 0 (some false) none false none false

/-- The injected environment capability behind EnvClient: the raw reset
observation and the raw step result (observation, reward, done, info) as
a function of the pickled actions payload and the slot's env id. -/
structure EnvModel where
  resetObs : Nat
  stepResult : Nat → Nat → Nat × Int × Bool × Nat

/-- EnvClient.reset_env: reset the gym env and wrap the observation in a
Frame with reward 0, done False and an empty pickled info. -/
def resetEnvFrame (env : EnvModel) : Frame :=
  Frame.mk env.resetObs 0 false 0 0

/-- ClientBase._perform_reset: a real reset only when the environment was
not just reset, else replay the cached reset frame. The frame component
is none exactly when Python would hand back a stale None cache. -/
def performReset (env : EnvModel) (w : WorkerState) :
    WorkerState × Option Frame × List EnvOp :=
  if w.was_just_reset = false then
    ({ w with was_just_reset := true, reset_frame := some (resetEnvFrame env) },
     some (resetEnvFrame env), [EnvOp.resetCall])
  else (w, w.reset_frame, [])

/-- EnvClient.step_env, including its transparent local reset when the
episode ends while reset compensation is off. -/
def stepEnvFrame (env : EnvModel) (w : WorkerState) (payload envId : Nat) :
    WorkerState × Option Frame × List EnvOp :=
  match env.stepResult payload envId with
  | (obs, reward, dn, info) =>
      if dn = true ∧ w.reset_compensation = false then
        match performReset env w with
        | (w1, some rf, ops) =>
            (w1, some (Frame.mk rf.observation reward dn info 0),
             EnvOp.stepCall payload envId :: ops)
        | (w1, none, ops) => (w1, none, EnvOp.stepCall payload envId :: ops)
      else (w, some (Frame.mk obs reward dn info 0), [EnvOp.stepCall payload envId])

/-- ClientBase._perform_step: clear was_just_reset, then step_env. -/
def performStep (env : EnvModel) (w : WorkerState) (payload envId : Nat) :
    WorkerState × Option Frame × List EnvOp :=
  stepEnvFrame env { w with was_just_reset := false } payload envId

/-- Transport outcome of one _send_frame exchange: the reply received, or a
poll timeout before sending or before receiving. -/
inductive SendOutcome
  | delivered (resp : ResponseKind)
  | timeoutSend
  | timeoutRecv
deriving DecidableEq, Repr

/-- ClientBase.close: close the environment and both sockets. -/
def closeClientOps : List EnvOp := [EnvOp.closeCall]

/-- ClientBase.reset_client: close, then initialization_routine. -/
def resetClientState : WorkerState := initializationRoutine

/-- Result of one _send_frame exchange. -/
structure SendResult where
  state : WorkerState
  accepted : Bool
  sent : List Frame
  envOps : List EnvOp
deriving DecidableEq, Repr

/-- ClientBase._send_frame: stamp the frame with the stored command_nonce
and run one request/reply exchange. none models the TypeError of stamping
while command_nonce is still None. -/
def sendFrame (w : WorkerState) (f : Frame) (out : SendOutcome) : Option SendResult :=
  match w.command_nonce with
  | none => none
  | some n =>
      let fr := { f with nonce := n }
      match out with
      | SendOutcome.timeoutSend =>
          some (SendResult.mk resetClientState false [] closeClientOps)
      | SendOutcome.timeoutRecv =>
          some (SendResult.mk resetClientState false [fr] closeClientOps)
      | SendOutcome.delivered ResponseKind.ok => some (SendResult.mk w true [fr] [])
      | SendOutcome.delivered ResponseKind.resetResponse =>
          some (SendResult.mk { w with is_initialized := false, environment_id := none,
                                       is_idle := none } false [fr] [])
      | SendOutcome.delivered ResponseKind.softError => some (SendResult.mk w true [fr] [])
      | SendOutcome.delivered _ =>
          some (SendResult.mk resetClientState false [fr] closeClientOps)

/-- Result of one run_command dispatch. -/
structure RunResult where
  state : WorkerState
  done : Bool
  sent : List Frame
  envOps : List EnvOp
deriving DecidableEq, Repr

/-- ClientBase.run_command with EnvClient's post_step_actions and
post_reset_actions. none models a Python error: comparing a nonce against
a still-None stored command_nonce, or STEP with an unset actions blob or
unbound environment id, or sending a stale None reset cache. -/
def runCommand (env : EnvModel) (w : WorkerState) (message : WorkerCommand)
    (out : SendOutcome) : Option RunResult :=
  match w.command_nonce with
  | none => none
  | some stored =>
      if message.nonce < stored then some (RunResult.mk w false [] [])
      else
        match message.command with
        | CommandKind.step =>
            match message.actions, w.environment_id with
            | some payload, some envId =>
                let w1 := { w with command_nonce := some message.nonce }
                match performStep env w1 payload envId with
                | (w2, some fr, ops1) =>
                    match sendFrame w2 fr out with
                    | some sr =>
                        if fr.done = true ∧ sr.state.reset_compensation = true then
                          match performReset env sr.state with
                          | (w3, _, ops2) =>
                              some (RunResult.mk w3 false sr.sent
                                (ops1 ++ sr.envOps ++ ops2))
                        else some (RunResult.mk sr.state false sr.sent (ops1 ++ sr.envOps))
                    | none => none
                | (_, none, _) => none
            | _, _ => none
        | CommandKind.reset =>
            let w1 := { w with command_nonce := some message.nonce }
            match performReset env w1 with
            | (w2, some fr, ops1) =>
                match sendFrame w2 fr out with
                | some sr => some (RunResult.mk sr.state false sr.sent (ops1 ++ sr.envOps))
                | none => none
            | (_, none, _) => none
        | CommandKind.close =>
            some (RunResult.mk w true [] closeClientOps)
        | CommandKind.resetClient =>
            if w.is_initialized = true ∧ w.server_instance_id ≠ some message.instance_id then
              some (RunResult.mk resetClientState false [] closeClientOps)
            else some (RunResult.mk w false [] [])
        | CommandKind.noCommand => some (RunResult.mk w false [] [])
        | CommandKind.wakeUp =>
            some (RunResult.mk { w with is_idle := some false, idle_timestamp := none }
              false [] [])

/-- ClientBase.run_command_simple: drain commands before initialization;
clears idle on WAKE_UP with no nonce check at all. Its RESET_CLIENT branch
references the undefined name `message` (client_base.py line 227), a
NameError unless the is_initialized guard short-circuits first; none
models that error. -/
def runCommandSimple (w : WorkerState) (command : Option WorkerCommand) :
    Option WorkerState :=
  match command with
  | none => some w
  | some c =>
      let w1 := if c.command = CommandKind.wakeUp
                then { w with is_idle := some false, idle_timestamp := none }
                else w
      if c.command = CommandKind.resetClient then
        if w1.is_initialized = true then none
        else some w1
      else some w1

/-! ### Field-preservation facts used throughout -/

@[simp] theorem cacheSpaces_client_env_map (s : ServerState) (req : MasterRequest) :
    (cacheSpaces s req).client_env_map = s.client_env_map := by
  unfold cacheSpaces; split <;> rfl

@[simp] theorem cacheSpaces_env_client_map (s : ServerState) (req : MasterRequest) :
    (cacheSpaces s req).env_client_map = s.env_client_map := by
  unfold cacheSpaces; split <;> rfl

@[simp] theorem cacheSpaces_configuration (s : ServerState) (req : MasterRequest) :
    (cacheSpaces s req).configuration = s.configuration := by
  unfold cacheSpaces; split <;> rfl

@[simp] theorem cacheSpaces_last_command (s : ServerState) (req : MasterRequest) :
    (cacheSpaces s req).last_command = s.last_command := by
  unfold cacheSpaces; split <;> rfl

@[simp] theorem cacheSpaces_published (s : ServerState) (req : MasterRequest) :
    (cacheSpaces s req).published = s.published := by
  unfold cacheSpaces; split <;> rfl

@[simp] theorem cacheSpaces_last_command_nonce (s : ServerState) (req : MasterRequest) :
    (cacheSpaces s req).last_command_nonce = s.last_command_nonce := by
  unfold cacheSpaces; split <;> rfl

@[simp] theorem cacheSpaces_command_nonce (s : ServerState) (req : MasterRequest) :
    (cacheSpaces s req).command_nonce = s.command_nonce := by
  unfold cacheSpaces; split <;> rfl

@[simp] theorem publishCommand_client_env_map (s : ServerState) (c : WorkerCommand)
    (r : Bool) : (publishCommand s c r).client_env_map = s.client_env_map := by
  unfold publishCommand; cases r <;> rfl

@[simp] theorem publishCommand_env_client_map (s : ServerState) (c : WorkerCommand)
    (r : Bool) : (publishCommand s c r).env_client_map = s.env_client_map := by
  unfold publishCommand; cases r <;> rfl

@[simp] theorem publishCommand_last_command_nonce (s : ServerState) (c : WorkerCommand)
    (r : Bool) : (publishCommand s c r).last_command_nonce = s.last_command_nonce := by
  unfold publishCommand; cases r <;> rfl

@[simp] theorem publishCommand_published (s : ServerState) (c : WorkerCommand)
    (r : Bool) : (publishCommand s c r).published = s.published ++ [c] := by
  unfold publishCommand; cases r <;> rfl

@[simp] theorem unregisterEnv_configuration (s : ServerState) (e : Nat) :
    (unregisterEnv s e).configuration = s.configuration := by
  unfold unregisterEnv; cases alookup s.env_client_map e <;> rfl

@[simp] theorem unregisterEnv_published (s : ServerState) (e : Nat) :
    (unregisterEnv s e).published = s.published := by
  unfold unregisterEnv; cases alookup s.env_client_map e <;> rfl

@[simp] theorem unregisterEnv_last_command (s : ServerState) (e : Nat) :
    (unregisterEnv s e).last_command = s.last_command := by
  unfold unregisterEnv; cases alookup s.env_client_map e <;> rfl

@[simp] theorem unregisterEnv_last_command_nonce (s : ServerState) (e : Nat) :
    (unregisterEnv s e).last_command_nonce = s.last_command_nonce := by
  unfold unregisterEnv; cases alookup s.env_client_map e <;> rfl

@[simp] theorem unregisterEnv_command_nonce (s : ServerState) (e : Nat) :
    (unregisterEnv s e).command_nonce = s.command_nonce := by
  unfold unregisterEnv; cases alookup s.env_client_map e <;> rfl

@[simp] theorem unregisterEnv_observation_buffer (s : ServerState) (e : Nat) :
    (unregisterEnv s e).observation_buffer = s.observation_buffer := by
  unfold unregisterEnv; cases alookup s.env_client_map e <;> rfl

@[simp] theorem unregisterEnv_reward_buffer (s : ServerState) (e : Nat) :
    (unregisterEnv s e).reward_buffer = s.reward_buffer := by
  unfold unregisterEnv; cases alookup s.env_client_map e <;> rfl

@[simp] theorem unregisterEnv_done_buffer (s : ServerState) (e : Nat) :
    (unregisterEnv s e).done_buffer = s.done_buffer := by
  unfold unregisterEnv; cases alookup s.env_client_map e <;> rfl

@[simp] theorem unregisterEnv_info_buffer (s : ServerState) (e : Nat) :
    (unregisterEnv s e).info_buffer = s.info_buffer := by
  unfold unregisterEnv; cases alookup s.env_client_map e <;> rfl

@[simp] theorem unregisterEnv_prev_observation_buffer (s : ServerState) (e : Nat) :
    (unregisterEnv s e).prev_observation_buffer = s.prev_observation_buffer := by
  unfold unregisterEnv; cases alookup s.env_client_map e <;> rfl

@[simp] theorem unregisterEnv_is_closed (s : ServerState) (e : Nat) :
    (unregisterEnv s e).is_closed = s.is_closed := by
  unfold unregisterEnv; cases alookup s.env_client_map e <;> rfl

/-- A fold preserves any property its step preserves. -/
theorem foldl_preserve {σ α : Type} (P : σ → Prop) (f : σ → α → σ)
    (hf : ∀ s a, P s → P (f s a)) :
    ∀ (l : List α) (s : σ), P s → P (l.foldl f s)
  | [], _, h => h
  | a :: rest, s, h => foldl_preserve P f hf rest (f s a) (hf s a h)

/-! ### C1 : the slot-table bijection -/

/-- The request-level operations named by the claim: INITIALIZE, CONNECT,
FRAME and a timeout-unregistration round, applied through the handlers. -/
inductive SlotOp
  | initOp
  | connectOp (client_id : Nat) (payload : Nat)
  | frameOp (client_id : Nat) (frame : Frame)
  | timeoutOp
deriving DecidableEq, Repr

/-- Apply one slot-table operation through the real handler code. -/
def applySlotOp (s : ServerState) (op : SlotOp) : ServerState :=
  match op with
  | SlotOp.initOp => (handleInitializeRequest s).2
  | SlotOp.connectOp c p =>
      (handleConnectRequest s
        (MasterRequest.mk RequestKind.connectRequest c s.instance_id p defaultFrame)).2
  | SlotOp.frameOp c f =>
      (handleFrameRequest s
        (MasterRequest.mk RequestKind.frameRequest c s.instance_id 0 f)).2
  | SlotOp.timeoutOp => communicationTimeout s

/-- A sequence of slot-table operations. -/
def applySlotOps (s : ServerState) (ops : List SlotOp) : ServerState :=
  ops.foldl applySlotOp s

/-- Mutual-inverse property of a pair of dicts, with well-formed keys. -/
def invMaps (cem ecm : List (Nat × Nat)) : Prop :=
  (akeys cem).Nodup ∧ (akeys ecm).Nodup ∧
  (∀ c e, alookup cem c = some e → alookup ecm e = some c) ∧
  (∀ e c, alookup ecm e = some c → alookup cem c = some e)

/-- Claim C1's property of a controller state: client_env_map and
env_client_map are mutual inverses (hence no env id has two occupants and
no client id holds two slots). -/
def slotMapsInverse (s : ServerState) : Prop :=
  (∀ c e, alookup s.client_env_map c = some e → alookup s.env_client_map e = some c) ∧
  (∀ e c, alookup s.env_client_map e = some c → alookup s.client_env_map c = some e)

/-- The inductive invariant: mutual inverses plus duplicate-free keys. -/
def slotMapsWF (s : ServerState) : Prop := invMaps s.client_env_map s.env_client_map

theorem slotMapsInverse_of_WF {s : ServerState} (h : slotMapsWF s) :
    slotMapsInverse s := ⟨h.2.2.1, h.2.2.2⟩

theorem invMaps_insert {cem ecm : List (Nat × Nat)} {c e : Nat}
    (h : invMaps cem ecm) (hc : alookup cem c = none) (he : alookup ecm e = none) :
    invMaps (ainsert cem c e) (ainsert ecm e c) := by
  obtain ⟨hn1, hn2, h1, h2⟩ := h
  refine ⟨nodup_akeys_ainsert c e hn1, nodup_akeys_ainsert e c hn2, ?_, ?_⟩
  · intro c2 e2 hl
    rw [alookup_ainsert] at hl
    rw [alookup_ainsert]
    by_cases hcc : c = c2
    · rw [if_pos hcc] at hl
      have he2 : e = e2 := Option.some.inj hl
      rw [if_pos he2, hcc]
    · rw [if_neg hcc] at hl
      have hmain := h1 c2 e2 hl
      have hee : ¬ e = e2 := by
        intro hee
        rw [← hee] at hmain
        rw [hmain] at he
        exact Option.noConfusion he
      rw [if_neg hee]
      exact hmain
  · intro e2 c2 hl
    rw [alookup_ainsert] at hl
    rw [alookup_ainsert]
    by_cases hee : e = e2
    · rw [if_pos hee] at hl
      have hc2 : c = c2 := Option.some.inj hl
      rw [if_pos hc2, hee]
    · rw [if_neg hee] at hl
      have hmain := h2 e2 c2 hl
      have hcc : ¬ c = c2 := by
        intro hcc
        rw [← hcc] at hmain
        rw [hmain] at hc
        exact Option.noConfusion hc
      rw [if_neg hcc]
      exact hmain

theorem invMaps_erase {cem ecm : List (Nat × Nat)} {e c : Nat}
    (h : invMaps cem ecm) (he : alookup ecm e = some c) :
    invMaps (aerase cem c) (aerase ecm e) := by
  obtain ⟨hn1, hn2, h1, h2⟩ := h
  refine ⟨nodup_akeys_aerase c hn1, nodup_akeys_aerase e hn2, ?_, ?_⟩
  · intro c2 e2 hl
    rw [alookup_aerase c c2 hn1] at hl
    rw [alookup_aerase e e2 hn2]
    by_cases hcc : c = c2
    · rw [if_pos hcc] at hl
      exact Option.noConfusion hl
    · rw [if_neg hcc] at hl
      have hmain := h1 c2 e2 hl
      by_cases hee : e = e2
      · rw [← hee, he] at hmain
        have : c = c2 := Option.some.inj hmain
        exact absurd this hcc
      · rw [if_neg hee]
        exact hmain
  · intro e2 c2 hl
    rw [alookup_aerase e e2 hn2] at hl
    rw [alookup_aerase c c2 hn1]
    by_cases hee : e = e2
    · rw [if_pos hee] at hl
      exact Option.noConfusion hl
    · rw [if_neg hee] at hl
      have hmain := h2 e2 c2 hl
      by_cases hcc : c = c2
      · have hce : alookup cem c = some e := h2 e c he
        rw [hcc, hmain] at hce
        have : e2 = e := Option.some.inj hce
        exact absurd this.symm hee
      · rw [if_neg hcc]
        exact hmain

theorem slotMapsWF_unregisterEnv {s : ServerState} (e : Nat) (h : slotMapsWF s) :
    slotMapsWF (unregisterEnv s e) := by
  unfold slotMapsWF unregisterEnv
  cases hq : alookup s.env_client_map e with
  | none => simp only [hq]; exact h
  | some c => simp only [hq]; exact invMaps_erase h hq

theorem slotMapsWF_timeout {s : ServerState} (h : slotMapsWF s) :
    slotMapsWF (communicationTimeout s) := by
  unfold communicationTimeout
  refine foldl_preserve slotMapsWF _ ?_ _ s h
  intro s2 idx h2
  dsimp only
  split
  · exact slotMapsWF_unregisterEnv idx h2
  · exact h2

theorem mapNewEnv_some {s : ServerState} {cid i : Nat} {s1 : ServerState}
    (h : mapNewEnv s cid = some (i, s1)) :
    alookup s.env_client_map i = none ∧
    s1 = { s with env_client_map := ainsert s.env_client_map i cid,
                  client_env_map := ainsert s.client_env_map cid i } := by
  unfold mapNewEnv at h
  cases hf : findFreeEnv s with
  | none => rw [hf] at h; exact Option.noConfusion h
  | some j =>
      rw [hf] at h
      have hj := List.find?_some hf
      have hji : j = i := congrArg Prod.fst (Option.some.inj h)
      subst hji
      refine ⟨?_, (congrArg Prod.snd (Option.some.inj h)).symm⟩
      simpa [Option.isNone_iff_eq_none] using hj

theorem slotMapsWF_connect {s : ServerState} (req : MasterRequest)
    (h : slotMapsWF s) (hfresh : alookup s.client_env_map req.client_id = none) :
    slotMapsWF (handleConnectRequest s req).2 := by
  unfold handleConnectRequest
  by_cases hcap : connectedClients (cacheSpaces s req) < numberOfClients (cacheSpaces s req)
  · cases hm : mapNewEnv (cacheSpaces s req) req.client_id with
    | none =>
        simp only [hcap, if_true, hm]
        unfold slotMapsWF
        simp only [cacheSpaces_client_env_map, cacheSpaces_env_client_map]
        exact h
    | some pr =>
        obtain ⟨i, s1⟩ := pr
        obtain ⟨hfree, hs1⟩ := mapNewEnv_some hm
        simp only [hcap, if_true, hm]
        unfold slotMapsWF
        subst hs1
        simp only [cacheSpaces_client_env_map, cacheSpaces_env_client_map]
        rw [ainsert_ainsert_same, ainsert_ainsert_same]
        rw [cacheSpaces_env_client_map] at hfree
        exact invMaps_insert h hfresh hfree
  · simp only [hcap, if_false]
    unfold slotMapsWF
    simp only [cacheSpaces_client_env_map, cacheSpaces_env_client_map]
    exact h

theorem unregisterEnv_client_env_map (s : ServerState) (e : Nat) :
    (unregisterEnv s e).client_env_map =
      (match alookup s.env_client_map e with
       | some c => aerase s.client_env_map c
       | none => s.client_env_map) := by
  unfold unregisterEnv; cases alookup s.env_client_map e <;> rfl

theorem unregisterEnv_env_client_map (s : ServerState) (e : Nat) :
    (unregisterEnv s e).env_client_map =
      (match alookup s.env_client_map e with
       | some _ => aerase s.env_client_map e
       | none => s.env_client_map) := by
  unfold unregisterEnv; cases alookup s.env_client_map e <;> rfl

theorem slotMapsWF_frame {s : ServerState} (req : MasterRequest)
    (h : slotMapsWF s) : slotMapsWF (handleFrameRequest s req).2 := by
  unfold handleFrameRequest
  dsimp only
  split
  · exact h
  · rename_i e h1
    split
    · exact h
    · rename_i occ h2
      split
      · exact h
      · split
        · exact h
        · split
          · unfold slotMapsWF sendWakeUpCall
            simp only [publishCommand_client_env_map, publishCommand_env_client_map,
              unregisterEnv_client_env_map, unregisterEnv_env_client_map, h2]
            exact invMaps_erase h h2
          · exact h

/-- One step preserves the invariant when a CONNECT never reuses a
currently-mapped client id. -/
theorem slotMapsWF_step {s : ServerState} (op : SlotOp) (h : slotMapsWF s)
    (hgood : ∀ c p, op = SlotOp.connectOp c p → alookup s.client_env_map c = none) :
    slotMapsWF (applySlotOp s op) := by
  cases op with
  | initOp => exact h
  | connectOp c p => exact slotMapsWF_connect _ h (hgood c p rfl)
  | frameOp c f => exact slotMapsWF_frame _ h
  | timeoutOp => exact slotMapsWF_timeout h

/-- A decidable freshness condition on a sequence of slot-table ops: every
CONNECT in the sequence carries a client id unmapped at that point. -/
def slotOpsGoodB : ServerState → List SlotOp → Bool
  | _, [] => true
  | s, op :: rest =>
      (match op with
       | SlotOp.connectOp c _ => (alookup s.client_env_map c).isNone
       | _ => true) && slotOpsGoodB (applySlotOp s op) rest

theorem slotMapsWF_applySlotOps :
    ∀ (ops : List SlotOp) (s : ServerState), slotMapsWF s →
      slotOpsGoodB s ops = true → slotMapsWF (applySlotOps s ops)
  | [], _, h, _ => h
  | op :: rest, s, h, hg => by
      simp only [slotOpsGoodB, Bool.and_eq_true] at hg
      have hstep : slotMapsWF (applySlotOp s op) := by
        refine slotMapsWF_step op h ?_
        intro c p hop
        subst hop
        simpa [Option.isNone_iff_eq_none] using hg.1
      have := slotMapsWF_applySlotOps rest (applySlotOp s op) hstep hg.2
      simpa [applySlotOps, List.foldl] using this

theorem slotMapsWF_mkServer (cfg : ServerConfiguration) (inst : Int) :
    slotMapsWF (mkServer cfg inst) := by
  refine ⟨by simp [mkServer], by simp [mkServer], ?_, ?_⟩ <;>
    intro a b hab <;> exact Option.noConfusion hab

/-- A two-slot controller configuration for the C1 scenario. -/
def c1Cfg : ServerConfiguration :=
  ServerConfiguration.mk "tcp" 9991 9992 2 1 "env" 1 30 false

/-- The controller state after INITIALIZE followed by two CONNECT requests
that both carry client id 0 (a worker re-sending its CONNECT). -/
def c1Broken : ServerState :=
  applySlotOps (mkServer c1Cfg 7)
    [SlotOp.initOp, SlotOp.connectOp 0 3, SlotOp.connectOp 0 3]

/-- C1 counterexample: a state reachable by INITIALIZE and two CONNECT
operations in which the slot maps are not mutual inverses — client 0
occupies both env 0 and env 1 while client_env_map sends it to env 1
only, so env_client_map[0] = 0 but client_env_map[0] = 1 ≠ 0. -/
theorem C1_counterexample : ¬ slotMapsInverse c1Broken := by
  intro h
  have h0 : alookup c1Broken.env_client_map 0 = some 0 := by decide
  have h1 := h.2 0 0 h0
  rw [show alookup c1Broken.client_env_map 0 = some 1 from by decide] at h1
  exact absurd h1 (by decide)

/-- C1 (amended): in every controller state reached from a fresh controller
by INITIALIZE, CONNECT, FRAME and timeout-unregistration operations in
which no CONNECT re-uses a client id that is currently mapped, the two
slot maps client_env_map and env_client_map are mutual inverses. -/
theorem C1_slot_maps_mutual_inverse (cfg : ServerConfiguration) (inst : Int)
    (ops : List SlotOp) (hgood : slotOpsGoodB (mkServer cfg inst) ops = true) :
    slotMapsInverse (applySlotOps (mkServer cfg inst) ops) :=
  slotMapsInverse_of_WF
    (slotMapsWF_applySlotOps ops (mkServer cfg inst) (slotMapsWF_mkServer cfg inst) hgood)

/-- Witness for C1: a concrete connect/frame/timeout run with fresh client
ids satisfies the freshness hypothesis, and the resulting state has
mutually inverse slot maps. -/
theorem C1_witness :
    slotOpsGoodB (mkServer c1Cfg 7)
      [SlotOp.initOp, SlotOp.connectOp 0 3, SlotOp.initOp, SlotOp.connectOp 1 3,
       SlotOp.frameOp 0 (Frame.mk 5 1 false 0 0), SlotOp.timeoutOp] = true ∧
    slotMapsInverse (applySlotOps (mkServer c1Cfg 7)
      [SlotOp.initOp, SlotOp.connectOp 0 3, SlotOp.initOp, SlotOp.connectOp 1 3,
       SlotOp.frameOp 0 (Frame.mk 5 1 false 0 0), SlotOp.timeoutOp]) :=
  ⟨by decide,
   C1_slot_maps_mutual_inverse c1Cfg 7
     [SlotOp.initOp, SlotOp.connectOp 0 3, SlotOp.initOp, SlotOp.connectOp 1 3,
      SlotOp.frameOp 0 (Frame.mk 5 1 false 0 0), SlotOp.timeoutOp] (by decide)⟩

/-! ### C2 / C3 : what a timeout round does and does not do -/

/-- A timeout round neither publishes nor touches any nonce or buffer: it
only unregisters slots. -/
theorem communicationTimeout_effects (s : ServerState) :
    (communicationTimeout s).published = s.published ∧
    (communicationTimeout s).last_command = s.last_command ∧
    (communicationTimeout s).last_command_nonce = s.last_command_nonce ∧
    (communicationTimeout s).command_nonce = s.command_nonce ∧
    (communicationTimeout s).observation_buffer = s.observation_buffer ∧
    (communicationTimeout s).reward_buffer = s.reward_buffer ∧
    (communicationTimeout s).done_buffer = s.done_buffer ∧
    (communicationTimeout s).prev_observation_buffer = s.prev_observation_buffer ∧
    (communicationTimeout s).info_buffer = s.info_buffer := by
  unfold communicationTimeout
  refine foldl_preserve
    (fun t => t.published = s.published ∧ t.last_command = s.last_command ∧
      t.last_command_nonce = s.last_command_nonce ∧ t.command_nonce = s.command_nonce ∧
      t.observation_buffer = s.observation_buffer ∧ t.reward_buffer = s.reward_buffer ∧
      t.done_buffer = s.done_buffer ∧
      t.prev_observation_buffer = s.prev_observation_buffer ∧
      t.info_buffer = s.info_buffer)
    _ ?_ _ s ⟨rfl, rfl, rfl, rfl, rfl, rfl, rfl, rfl, rfl⟩
  intro t idx ht
  dsimp only
  split
  · simpa using ht
  · exact ht

/-- gather_frames hands back a batch only out of a ready buffer: whenever
the loop returns a result, some intermediate state had every observation
cell filled and the batch is exactly its stacked buffers. -/
theorem gatherLoop_some_of_ready :
    ∀ (events : List GatherEvent) (s s2 : ServerState) (r : GatherResult),
      gatherLoop events s = (some r, s2) →
      ∃ s1 : ServerState, isFrameBufferReady s1 = true ∧ gatherFinish s1 = (some r, s2)
  | [], s, s2, r, h => by
      unfold gatherLoop at h
      by_cases hr : isFrameBufferReady s = true
      · rw [if_pos hr] at h
        exact ⟨s, hr, h⟩
      · rw [if_neg hr] at h
        exact Option.noConfusion (congrArg Prod.fst h)
  | e :: rest, s, s2, r, h => by
      unfold gatherLoop at h
      by_cases hr : isFrameBufferReady s = true
      · rw [if_pos hr] at h
        exact ⟨s, hr, h⟩
      · rw [if_neg hr] at h
        exact gatherLoop_some_of_ready rest (gatherStep s e) s2 r h

/-- One-slot controller configuration for the C2/C3 scenarios. -/
def c2Cfg : ServerConfiguration :=
  ServerConfiguration.mk "tcp" 9991 9992 1 1 "env" 1 30 false

/-- Worker 0's CONNECT. -/
def c2Connect1 : MasterRequest :=
  MasterRequest.mk RequestKind.connectRequest 0 5 3 defaultFrame

/-- A late worker's CONNECT (fresh client id 9). -/
def c2Connect2 : MasterRequest :=
  MasterRequest.mk RequestKind.connectRequest 9 5 3 defaultFrame

/-- The late worker's frame: fresh observation 42, reward 7, done false,
stamped with the current STEP nonce 0. -/
def c2FrameReq : MasterRequest :=
  MasterRequest.mk RequestKind.frameRequest 9 5 0 (Frame.mk 42 7 false 2 0)

/-- Mid-step state: one slot, worker 0 connected, STEP broadcast, frame
buffer cleared, worker 0 silent from now on. -/
def c2Mid : ServerState :=
  (sendActions ((communicationLoop (mkServer c2Cfg 5) (some c2Connect1)).2) 7).2

/-- Gather schedule: a timeout round with the slot still empty, then the
late worker connects and delivers a fresh frame. -/
def c2Events : List GatherEvent :=
  [(none, true), (some c2Connect2, false), (some c2FrameReq, false)]

/-- C2 counterexample: the step timeout elapses with slot 0's frame still
missing, yet the timeout round substitutes nothing (the cell stays empty)
and the batch finally returned carries the late worker's fresh frame with
reward 7 and done false — not the previous observation with reward 0 and
done true. -/
theorem C2_counterexample :
    isFrameBufferReady (gatherStep c2Mid (none, true)) = false ∧
    (gatherStep c2Mid (none, true)).observation_buffer = [none] ∧
    (gatherFrames c2Mid c2Events).1 =
      Except.ok (some (GatherResult.mk [42] [7] [false] [some 2])) :=
  ⟨by decide, by decide, by rfl⟩

/-- C2 (amended): when the step timeout elapses during gather_frames the
controller only unregisters the still-empty mapped slots and keeps every
frame-buffer cell unchanged — no previous-observation, reward-0, done-true
substitute is written — and the loop keeps waiting: a batch is returned
only once every slot's observation cell has been filled by an accepted
frame (possibly from a freshly connected worker). -/
theorem C2_timeout_substitutes_nothing :
    (∀ s : ServerState,
       (communicationTimeout s).observation_buffer = s.observation_buffer ∧
       (communicationTimeout s).reward_buffer = s.reward_buffer ∧
       (communicationTimeout s).done_buffer = s.done_buffer ∧
       (communicationTimeout s).prev_observation_buffer = s.prev_observation_buffer) ∧
    (∀ (events : List GatherEvent) (s s2 : ServerState) (r : GatherResult),
       gatherLoop events s = (some r, s2) →
       ∃ s1 : ServerState, isFrameBufferReady s1 = true ∧ gatherFinish s1 = (some r, s2)) :=
  ⟨fun s =>
    ⟨(communicationTimeout_effects s).2.2.2.2.1,
     (communicationTimeout_effects s).2.2.2.2.2.1,
     (communicationTimeout_effects s).2.2.2.2.2.2.1,
     (communicationTimeout_effects s).2.2.2.2.2.2.2.1⟩,
   gatherLoop_some_of_ready⟩

/-- Witness for C2: on the concrete schedule above the loop returns, so
some intermediate state was ready and produced exactly that batch. -/
theorem C2_witness :
    ∃ s1 : ServerState, isFrameBufferReady s1 = true ∧
      gatherFinish s1 = (some (GatherResult.mk [42] [7] [false] [some 2]),
        (gatherLoop c2Events c2Mid).2) :=
  C2_timeout_substitutes_nothing.2 c2Events c2Mid (gatherLoop c2Events c2Mid).2
    (GatherResult.mk [42] [7] [false] [some 2]) (by decide)

/-- The stuck mid-gather state for C3: the STEP was broadcast, the only
slot timed out once and was unregistered, and the buffer is still empty. -/
def c3Stuck : ServerState := gatherStep c2Mid (none, true)

/-- C3 counterexample: in this reachable state no slot can be unregistered
(the still-empty slot is already absent from env_client_map) and a
last_command exists, yet the timeout round changes nothing at all — in
particular nothing is re-published and no fresh nonce is drawn, so the
claimed rebroadcast retry path does not exist in the code. -/
theorem C3_counterexample :
    isFrameBufferReady c3Stuck = false ∧
    c3Stuck.env_client_map = [] ∧
    c3Stuck.last_command.isSome = true ∧
    communicationTimeout c3Stuck = c3Stuck :=
  ⟨by decide, by decide, by decide, by decide⟩

/-- C3 (amended): a gather_frames timeout round only unregisters
still-empty mapped slots; whether or not any slot could be unregistered,
the controller never re-publishes last_command and never draws a fresh
nonce — last_command reaches late workers only through the OK_ENCOURAGE
connect response. -/
theorem C3_no_rebroadcast_on_timeout (s : ServerState) :
    (communicationTimeout s).published = s.published ∧
    (communicationTimeout s).last_command = s.last_command ∧
    (communicationTimeout s).last_command_nonce = s.last_command_nonce ∧
    (communicationTimeout s).command_nonce = s.command_nonce :=
  ⟨(communicationTimeout_effects s).1, (communicationTimeout_effects s).2.1,
   (communicationTimeout_effects s).2.2.1, (communicationTimeout_effects s).2.2.2.1⟩

/-! ### C4 : the frame handler's acceptance gate -/

@[simp] theorem publishCommand_observation_buffer (s : ServerState) (c : WorkerCommand)
    (r : Bool) : (publishCommand s c r).observation_buffer = s.observation_buffer := by
  unfold publishCommand; cases r <;> rfl

@[simp] theorem publishCommand_reward_buffer (s : ServerState) (c : WorkerCommand)
    (r : Bool) : (publishCommand s c r).reward_buffer = s.reward_buffer := by
  unfold publishCommand; cases r <;> rfl

@[simp] theorem publishCommand_done_buffer (s : ServerState) (c : WorkerCommand)
    (r : Bool) : (publishCommand s c r).done_buffer = s.done_buffer := by
  unfold publishCommand; cases r <;> rfl

@[simp] theorem publishCommand_info_buffer (s : ServerState) (c : WorkerCommand)
    (r : Bool) : (publishCommand s c r).info_buffer = s.info_buffer := by
  unfold publishCommand; cases r <;> rfl

/-- The slot-table consistency test of the frame handler, as a boolean. -/
def frameConsistentB (s : ServerState) (c : Nat) : Bool :=
  match alookup s.client_env_map c with
  | none => false
  | some e => decide (alookup s.env_client_map e = some c)

/-- C4: the frame handler stores the frame into the buffer cell of the
sender's env id exactly when the sender's slot-table entry is consistent
and the frame's nonce equals the current command nonce; a consistent
sender whose nonce differs gets SOFT_ERROR with the whole state untouched;
an inconsistent sender also leaves the state unchanged. -/
theorem C4_frame_nonce_gate (s : ServerState) (req : MasterRequest) :
    (frameConsistentB s req.client_id = false → (handleFrameRequest s req).2 = s) ∧
    (∀ e, alookup s.client_env_map req.client_id = some e →
      alookup s.env_client_map e = some req.client_id →
      ((some req.frame.nonce = s.command_nonce →
         (handleFrameRequest s req).2.observation_buffer =
           s.observation_buffer.set e (some (deserializeNumpy req.frame.observation)) ∧
         (handleFrameRequest s req).2.reward_buffer =
           s.reward_buffer.set e (some req.frame.reward) ∧
         (handleFrameRequest s req).2.done_buffer =
           s.done_buffer.set e (some req.frame.done) ∧
         (handleFrameRequest s req).2.info_buffer =
           s.info_buffer.set e (some (unpickle req.frame.info))) ∧
       (some req.frame.nonce ≠ s.command_nonce →
         (handleFrameRequest s req).1 =
           some (MasterResponse.mk ResponseKind.softError none none) ∧
         (handleFrameRequest s req).2 = s))) := by
  constructor
  · intro hb
    unfold frameConsistentB at hb
    unfold handleFrameRequest
    dsimp only
    split
    · rfl
    · rename_i e h1
      simp only [h1] at hb
      split
      · rfl
      · rename_i occ h2
        split
        · rfl
        · rename_i hocc
          have hocc2 : occ = req.client_id := not_not.mp hocc
          exact absurd (h2.trans (congrArg some hocc2)) (of_decide_eq_false hb)
  · intro e h1 h2
    unfold handleFrameRequest
    dsimp only
    simp only [h1, h2]
    rw [if_neg (by intro hc; exact hc rfl)]
    constructor
    · intro heq
      rw [if_neg (fun hc => hc heq)]
      split
      · refine ⟨?_, ?_, ?_, ?_⟩ <;> simp [sendWakeUpCall]
      · refine ⟨?_, ?_, ?_, ?_⟩ <;> simp
    · intro hne
      rw [if_pos hne]
      exact ⟨rfl, rfl⟩

/-- One-slot scenario state for the C4 witness: worker 0 mapped to env 0,
STEP broadcast with nonce 0. -/
def c4St : ServerState :=
  (sendActions ((communicationLoop (mkServer
    (ServerConfiguration.mk "tcp" 9991 9992 1 1 "env" 1 30 false) 5)
    (some (MasterRequest.mk RequestKind.connectRequest 0 5 3 defaultFrame))).2) 7).2

/-- A frame from the mapped worker 0 stamped with the stale nonce 1. -/
def c4Req : MasterRequest :=
  MasterRequest.mk RequestKind.frameRequest 0 5 0 (Frame.mk 42 7 false 2 1)

/-- Witness for C4: worker 0 is consistently mapped, its frame's nonce 1
differs from the current command nonce 0, and the handler answers
SOFT_ERROR leaving the state unchanged. -/
theorem C4_witness :
    (handleFrameRequest c4St c4Req).1 =
      some (MasterResponse.mk ResponseKind.softError none none) ∧
    (handleFrameRequest c4St c4Req).2 = c4St :=
  ((C4_frame_nonce_gate c4St c4Req).2 0 (by decide) (by decide)).2 (by decide)

/-! ### C8 : behaviour after close -/

/-- C8 (amended): once is_closed is set, reset_environments, send_actions,
gather_frames and a second close_environments raise the closed error and
return the state unchanged; initialize also leaves the state unchanged but
raises the closed error only when no client is mapped — close does not
clear the slot table, so a controller closed with workers still mapped
gets the already-initialized handler error from initialize instead. -/
theorem C8_operations_after_close (s : ServerState) (h : s.is_closed = true)
    (events : List GatherEvent) (reqs : List (Option MasterRequest)) (a : Nat) :
    resetEnvironments s events = (Except.error ServerError.closedError, s) ∧
    sendActions s a = (Except.error ServerError.closedError, s) ∧
    gatherFrames s events = (Except.error ServerError.closedError, s) ∧
    closeEnvironments s = (Except.error ServerError.closedError, s) ∧
    (s.client_env_map = [] →
      initServer s reqs = (Except.error ServerError.closedError, s)) ∧
    (s.client_env_map ≠ [] →
      initServer s reqs = (Except.error ServerError.handlerError, s)) := by
  refine ⟨?_, ?_, ?_, ?_, ?_, ?_⟩
  · unfold resetEnvironments; rw [if_pos h]
  · unfold sendActions; rw [if_pos h]
  · unfold gatherFrames; rw [if_pos h]
  · unfold closeEnvironments; rw [if_pos h]
  · intro hm
    unfold initServer
    have h0 : connectedClients s = 0 := by
      unfold connectedClients; rw [hm]; rfl
    rw [h0]
    rw [if_neg (by omega), if_pos h]
  · intro hm
    unfold initServer
    have h0 : 0 < connectedClients s := by
      unfold connectedClients
      exact List.length_pos.mpr hm
    rw [if_pos h0]

/-- A one-slot controller closed while worker 0 is still mapped. -/
def c8Closed : ServerState :=
  (closeEnvironments ((communicationLoop (mkServer
    (ServerConfiguration.mk "tcp" 9991 9992 1 1 "env" 1 30 false) 5)
    (some (MasterRequest.mk RequestKind.connectRequest 0 5 3 defaultFrame))).2)).2

/-- C8 counterexample: after a successful close with a worker still mapped
in the slot table, a subsequent initialize raises the already-initialized
handler error, not the closed error the claim promises for every
operation. -/
theorem C8_counterexample :
    c8Closed.is_closed = true ∧
    (initServer c8Closed []).1 = Except.error ServerError.handlerError :=
  ⟨by decide, by rfl⟩

/-- A controller closed while no worker was mapped. -/
def c8ClosedEmpty : ServerState :=
  (closeEnvironments (mkServer
    (ServerConfiguration.mk "tcp" 9991 9992 1 1 "env" 1 30 false) 5)).2

/-- Witness for C8: on a concrete closed controller with an empty slot
table every operation raises the closed error and the state is returned
unchanged. -/
theorem C8_witness :
    resetEnvironments c8ClosedEmpty [] = (Except.error ServerError.closedError, c8ClosedEmpty) ∧
    sendActions c8ClosedEmpty 0 = (Except.error ServerError.closedError, c8ClosedEmpty) ∧
    initServer c8ClosedEmpty [] = (Except.error ServerError.closedError, c8ClosedEmpty) :=
  ⟨(C8_operations_after_close c8ClosedEmpty (by decide) [] [] 0).1,
   (C8_operations_after_close c8ClosedEmpty (by decide) [] [] 0).2.1,
   (C8_operations_after_close c8ClosedEmpty (by decide) [] [] 0).2.2.2.2.1 (by decide)⟩

/-! ### C9 : the missing verbosity attribute -/

/-- C9 (code bug): ServerConfiguration.__init__ never assigns a verbosity
attribute, so the configuration.verbosity read that initialize() and the
verbosity-guarded handler branches perform raises AttributeError; the
client-side configuration, by contrast, does define verbosity. -/
theorem C9_verbosity_attribute_missing :
    serverVerbosityRead = Except.error "AttributeError" ∧
    serverConfigurationAttributeNames.contains "verbosity" = false ∧
    clientConfigurationAttributeNames.contains "verbosity" = true :=
  ⟨by rfl, by rfl, by rfl⟩

/-! ### C10 : seeds handed out by INITIALIZE -/

/-- Seeds carried by the replies to n successive INITIALIZE requests. -/
def iterInitSeeds : ServerState → Nat → List Nat
  | _, 0 => []
  | s, n + 1 =>
      (match (handleInitializeRequest s).1.name_response with
       | some nr => [nr.seed]
       | none => []) ++ iterInitSeeds (handleInitializeRequest s).2 n

theorem iterInitSeeds_eq_range (s : ServerState) :
    ∀ n, iterInitSeeds s n = List.range' s.last_client_id_assigned n := by
  suffices h : ∀ n (t : ServerState),
      iterInitSeeds t n = List.range' t.last_client_id_assigned n by
    intro n; exact h n s
  intro n
  induction n with
  | zero => intro t; rfl
  | succ k ih =>
      intro t
      have h1 : iterInitSeeds t (k + 1) =
          t.last_client_id_assigned :: iterInitSeeds (handleInitializeRequest t).2 k := rfl
      rw [h1, ih]
      rfl

/-- C10: every INITIALIZE reply carries seed equal to the client id it
assigns, both equal to the counter value before the bump; the counter then
increments, so n successive INITIALIZE requests receive the strictly
increasing, pairwise distinct seeds counter, counter+1, ... . -/
theorem C10_initialize_seeds (s : ServerState) (n : Nat) :
    (handleInitializeRequest s).1.name_response.map NameResponse.seed =
      some s.last_client_id_assigned ∧
    (handleInitializeRequest s).1.name_response.map NameResponse.client_id =
      some s.last_client_id_assigned ∧
    (handleInitializeRequest s).2.last_client_id_assigned =
      s.last_client_id_assigned + 1 ∧
    iterInitSeeds s n = List.range' s.last_client_id_assigned n ∧
    List.Pairwise (fun a b => a < b) (iterInitSeeds s n) := by
  refine ⟨rfl, rfl, rfl, iterInitSeeds_eq_range s n, ?_⟩
  rw [iterInitSeeds_eq_range s n]
  exact List.pairwise_lt_range' s.last_client_id_assigned n

/-! ### C5 : strictly increasing broadcast nonces -/

theorem wrap64_small (n : Int) (h0 : 0 ≤ n) (h1 : n < 2 ^ 63) : wrap64 n = n := by
  unfold wrap64
  have h64 : (2 : Int) ^ 64 = 18446744073709551616 := by norm_num
  have h63 : (2 : Int) ^ 63 = 9223372036854775808 := by norm_num
  rw [h64, h63]
  rw [h63] at h1
  omega

theorem wrap64_add_one (x : Int) : int64Add (wrap64 x) 1 = wrap64 (x + 1) := by
  unfold int64Add wrap64
  have h64 : (2 : Int) ^ 64 = 18446744073709551616 := by norm_num
  have h63 : (2 : Int) ^ 63 = 9223372036854775808 := by norm_num
  rw [h64, h63]
  omega

/-- The top-level controller operations for the nonce claim. -/
inductive ServerOp
  | clientResetOp
  | resetOp (events : List GatherEvent)
  | stepOp (actions : Nat)
  | gatherOp (events : List GatherEvent)
  | closeOp
  | commEvent (e : Option MasterRequest)
  | handshakeOp (events : List (Option MasterRequest))
deriving Repr

/-- Run one controller operation, keeping only the state. -/
def applyServerOp (s : ServerState) (op : ServerOp) : ServerState :=
  match op with
  | ServerOp.clientResetOp => sendClientReset s
  | ServerOp.resetOp ev => (resetEnvironments s ev).2
  | ServerOp.stepOp a => (sendActions s a).2
  | ServerOp.gatherOp ev => (gatherFrames s ev).2
  | ServerOp.closeOp => (closeEnvironments s).2
  | ServerOp.commEvent e => (communicationLoop s e).2
  | ServerOp.handshakeOp ev => (initServer s ev).2

/-- Run a sequence of controller operations. -/
def runServerOps (s : ServerState) (ops : List ServerOp) : ServerState :=
  ops.foldl applyServerOp s

/-- A command carries nonce semantics unless it is the fire-and-forget
WAKE_UP. -/
def isNonced (c : WorkerCommand) : Bool := decide (c.command ≠ CommandKind.wakeUp)

/-- The nonce-bearing commands that went out on the command socket. -/
def noncedCommands (s : ServerState) : List WorkerCommand :=
  s.published.filter isNonced

/-- Their nonces, in publish order. -/
def broadcastNonces (s : ServerState) : List Int :=
  (noncedCommands s).map WorkerCommand.nonce

/-- The nonce invariant: the counter equals the (wrapped) count of
nonce-bearing publishes so far, whose nonces are 0, 1, 2, ... wrapped. -/
def nonceInv (s : ServerState) : Prop :=
  s.last_command_nonce = wrap64 ((noncedCommands s).length : Int) ∧
  broadcastNonces s =
    List.map (fun j : Nat => wrap64 (j : Int)) (List.range (noncedCommands s).length)

theorem nonceInv_of_silent {s t : ServerState} (h : nonceInv s)
    (hl : t.last_command_nonce = s.last_command_nonce)
    (hp : t.published = s.published ∨
          t.published = s.published ++ [WorkerCommand.mk CommandKind.wakeUp 0 none 0]) :
    nonceInv t := by
  simp only [nonceInv, noncedCommands, broadcastNonces] at h ⊢
  rcases hp with hp | hp <;> rw [hp, hl]
  · exact h
  · rw [List.filter_append]
    have hw : List.filter isNonced [WorkerCommand.mk CommandKind.wakeUp 0 none 0] = [] := rfl
    rw [hw, List.append_nil]
    exact h

theorem nonceInv_publish_nonced {s : ServerState} (h : nonceInv s)
    (c : WorkerCommand) (hc : isNonced c = true) (hn : c.nonce = s.last_command_nonce)
    (r : Bool) :
    nonceInv (publishCommand
      { s with last_command_nonce := int64Add s.last_command_nonce 1 } c r) := by
  obtain ⟨h1, h2⟩ := h
  simp only [nonceInv, noncedCommands, broadcastNonces] at h1 h2 ⊢
  rw [publishCommand_published, publishCommand_last_command_nonce]
  dsimp only
  have hcf : List.filter isNonced [c] = [c] := by simp [hc]
  rw [List.filter_append, hcf, List.length_append, List.length_singleton]
  constructor
  · rw [h1, wrap64_add_one]
    norm_cast
  · rw [List.map_append, h2, List.range_succ, List.map_append]
    simp [hn, h1]

theorem handleConnect_nonce_silent (s : ServerState) (req : MasterRequest) :
    (handleConnectRequest s req).2.last_command_nonce = s.last_command_nonce ∧
    (handleConnectRequest s req).2.published = s.published := by
  unfold handleConnectRequest
  dsimp only
  by_cases hcap : connectedClients (cacheSpaces s req) < numberOfClients (cacheSpaces s req)
  · rw [if_pos hcap]
    cases hm : mapNewEnv (cacheSpaces s req) req.client_id with
    | none => constructor <;> simp
    | some pr =>
        obtain ⟨i, s1⟩ := pr
        obtain ⟨hfree, hs1⟩ := mapNewEnv_some hm
        subst hs1
        constructor <;> simp
  · rw [if_neg hcap]
    constructor <;> simp

theorem handleFrame_nonce_silent (s : ServerState) (req : MasterRequest) :
    (handleFrameRequest s req).2.last_command_nonce = s.last_command_nonce ∧
    ((handleFrameRequest s req).2.published = s.published ∨
     (handleFrameRequest s req).2.published =
       s.published ++ [WorkerCommand.mk CommandKind.wakeUp 0 none 0]) := by
  unfold handleFrameRequest
  dsimp only
  split
  · exact ⟨rfl, Or.inl rfl⟩
  · split
    · exact ⟨rfl, Or.inl rfl⟩
    · split
      · exact ⟨rfl, Or.inl rfl⟩
      · split
        · exact ⟨rfl, Or.inl rfl⟩
        · split
          · refine ⟨by simp [sendWakeUpCall], Or.inr (by simp [sendWakeUpCall])⟩
          · exact ⟨rfl, Or.inl rfl⟩

theorem communicationLoop_nonceInv (s : ServerState) (e : Option MasterRequest)
    (h : nonceInv s) : nonceInv (communicationLoop s e).2 := by
  unfold communicationLoop
  cases e with
  | none => exact h
  | some req =>
      dsimp only
      split
      · exact h
      · split
        · exact nonceInv_of_silent h rfl (Or.inl rfl)
        · exact nonceInv_of_silent h (handleConnect_nonce_silent s req).1
            (Or.inl (handleConnect_nonce_silent s req).2)
        · exact nonceInv_of_silent h (handleFrame_nonce_silent s req).1
            (handleFrame_nonce_silent s req).2
        · exact h

theorem communicationTimeout_nonceInv {s : ServerState} (h : nonceInv s) :
    nonceInv (communicationTimeout s) :=
  nonceInv_of_silent h (communicationTimeout_effects s).2.2.1
    (Or.inl (communicationTimeout_effects s).1)

theorem gatherStep_nonceInv (s : ServerState) (e : GatherEvent) (h : nonceInv s) :
    nonceInv (gatherStep s e) := by
  unfold gatherStep
  dsimp only
  split
  · exact communicationTimeout_nonceInv (communicationLoop_nonceInv s e.1 h)
  · exact communicationLoop_nonceInv s e.1 h

theorem gatherLoop_nonceInv :
    ∀ (events : List GatherEvent) (s : ServerState), nonceInv s →
      nonceInv (gatherLoop events s).2
  | [], s, h => by
      unfold gatherLoop
      split
      · exact nonceInv_of_silent h rfl (Or.inl rfl)
      · exact h
  | e :: rest, s, h => by
      unfold gatherLoop
      split
      · exact nonceInv_of_silent h rfl (Or.inl rfl)
      · exact gatherLoop_nonceInv rest (gatherStep s e) (gatherStep_nonceInv s e h)

theorem gatherFrames_nonceInv (ev : List GatherEvent) {s : ServerState}
    (h : nonceInv s) : nonceInv (gatherFrames s ev).2 := by
  unfold gatherFrames
  split
  · exact h
  · dsimp only
    exact gatherLoop_nonceInv ev s h

theorem sendClientReset_nonceInv {s : ServerState} (h : nonceInv s) :
    nonceInv (sendClientReset s) := by
  unfold sendClientReset
  dsimp only
  exact nonceInv_publish_nonced h
    (WorkerCommand.mk CommandKind.resetClient s.last_command_nonce none s.instance_id)
    rfl rfl true

theorem sendActions_nonceInv (a : Nat) {s : ServerState} (h : nonceInv s) :
    nonceInv (sendActions s a).2 := by
  unfold sendActions
  split
  · exact h
  · dsimp only
    exact nonceInv_of_silent
      (nonceInv_publish_nonced h
        (WorkerCommand.mk CommandKind.step s.last_command_nonce (some a) 0) rfl rfl true)
      rfl (Or.inl rfl)

theorem resetEnvironments_nonceInv (ev : List GatherEvent) {s : ServerState}
    (h : nonceInv s) : nonceInv (resetEnvironments s ev).2 := by
  unfold resetEnvironments
  split
  · exact h
  · dsimp only
    have h2 : nonceInv (resetFrameBuffer (publishCommand
        { s with last_command_nonce := int64Add s.last_command_nonce 1 }
        (WorkerCommand.mk CommandKind.reset s.last_command_nonce none 0) true)) :=
      nonceInv_of_silent
        (nonceInv_publish_nonced h
          (WorkerCommand.mk CommandKind.reset s.last_command_nonce none 0) rfl rfl true)
        rfl (Or.inl rfl)
    split
    · rename_i res s3 heq
      have h3 := gatherFrames_nonceInv ev h2
      rw [heq] at h3
      exact h3
    · rename_i e2 s3 heq
      have h3 := gatherFrames_nonceInv ev h2
      rw [heq] at h3
      exact h3

theorem closeEnvironments_nonceInv {s : ServerState} (h : nonceInv s) :
    nonceInv (closeEnvironments s).2 := by
  unfold closeEnvironments
  split
  · exact h
  · dsimp only
    have h0 : nonceInv { s with is_closed := true } :=
      nonceInv_of_silent h rfl (Or.inl rfl)
    exact nonceInv_of_silent
      (nonceInv_publish_nonced h0
        (WorkerCommand.mk CommandKind.close s.last_command_nonce none 0) rfl rfl true)
      rfl (Or.inl rfl)

theorem initLoop_nonceInv :
    ∀ (evs : List (Option MasterRequest)) (s : ServerState), nonceInv s →
      nonceInv (initLoop evs s).2
  | [], s, h => by
      unfold initLoop
      split <;> exact h
  | e :: rest, s, h => by
      unfold initLoop
      split
      · exact initLoop_nonceInv rest _ (communicationLoop_nonceInv s e h)
      · exact h

theorem initServer_nonceInv (evs : List (Option MasterRequest)) {s : ServerState}
    (h : nonceInv s) : nonceInv (initServer s evs).2 := by
  unfold initServer
  split
  · exact h
  · split
    · exact h
    · dsimp only
      exact initLoop_nonceInv evs _ (sendClientReset_nonceInv h)

theorem runServerOps_nonceInv :
    ∀ (ops : List ServerOp) (s : ServerState), nonceInv s →
      nonceInv (runServerOps s ops)
  | [], _, h => h
  | op :: rest, s, h => by
      have hstep : nonceInv (applyServerOp s op) := by
        cases op with
        | clientResetOp => exact sendClientReset_nonceInv h
        | resetOp ev => exact resetEnvironments_nonceInv ev h
        | stepOp a => exact sendActions_nonceInv a h
        | gatherOp ev => exact gatherFrames_nonceInv ev h
        | closeOp => exact closeEnvironments_nonceInv h
        | commEvent e => exact communicationLoop_nonceInv s e h
        | handshakeOp evs => exact initServer_nonceInv evs h
      have hrec := runServerOps_nonceInv rest (applyServerOp s op) hstep
      simpa [runServerOps, List.foldl] using hrec

theorem nonceInv_mkServer (cfg : ServerConfiguration) (inst : Int) :
    nonceInv (mkServer cfg inst) := by
  constructor
  · show (0 : Int) = wrap64 (((noncedCommands (mkServer cfg inst)).length : Nat) : Int)
    have h0 : (((noncedCommands (mkServer cfg inst)).length : Nat) : Int) = 0 := rfl
    rw [h0]
    exact (wrap64_small 0 (by norm_num) (by norm_num)).symm
  · rfl

theorem nonceInv_strict {s : ServerState} (h : nonceInv s)
    (hcount : (noncedCommands s).length ≤ 2 ^ 63) :
    broadcastNonces s =
      List.map (fun j : Nat => (j : Int)) (List.range (noncedCommands s).length) ∧
    List.Pairwise (fun a b : Int => a < b) (broadcastNonces s) ∧
    ((noncedCommands s).length ≠ 0 → (broadcastNonces s).head? = some 0) := by
  have hmap : List.map (fun j : Nat => wrap64 (j : Int)) (List.range (noncedCommands s).length) =
      List.map (fun j : Nat => (j : Int)) (List.range (noncedCommands s).length) := by
    apply List.map_congr_left
    intro a ha
    have halt : a < (noncedCommands s).length := List.mem_range.mp ha
    have hbound : a < 2 ^ 63 := Nat.lt_of_lt_of_le halt hcount
    refine wrap64_small (a : Int) (by positivity) ?_
    exact_mod_cast hbound
  have heq : broadcastNonces s =
      List.map (fun j : Nat => (j : Int)) (List.range (noncedCommands s).length) := by
    rw [h.2, hmap]
  refine ⟨heq, ?_, ?_⟩
  · rw [heq]
    refine List.Pairwise.map (fun j : Nat => (j : Int)) ?_
      (List.pairwise_lt_range (noncedCommands s).length)
    intro a b hab
    simp only []
    exact_mod_cast hab
  · intro hne
    rw [heq]
    obtain ⟨m, hm⟩ := Nat.exists_eq_succ_of_ne_zero hne
    rw [hm, List.range_succ_eq_map]
    simp

/-- C5: starting from a fresh controller, after any sequence of controller
operations the nonces of the published nonce-bearing commands (RESET,
STEP, CLOSE, RESET_CLIENT — everything except the fire-and-forget
WAKE_UP) are exactly 0, 1, 2, ... in publish order: a strictly increasing
int64 sequence starting at 0, as long as the publish count stays within
the int64 range. -/
theorem C5_broadcast_nonces_strictly_increasing (cfg : ServerConfiguration)
    (inst : Int) (ops : List ServerOp)
    (hcount : (noncedCommands (runServerOps (mkServer cfg inst) ops)).length ≤ 2 ^ 63) :
    broadcastNonces (runServerOps (mkServer cfg inst) ops) =
      List.map (fun j : Nat => (j : Int))
        (List.range (noncedCommands (runServerOps (mkServer cfg inst) ops)).length) ∧
    List.Pairwise (fun a b : Int => a < b)
      (broadcastNonces (runServerOps (mkServer cfg inst) ops)) ∧
    ((noncedCommands (runServerOps (mkServer cfg inst) ops)).length ≠ 0 →
      (broadcastNonces (runServerOps (mkServer cfg inst) ops)).head? = some 0) :=
  nonceInv_strict
    (runServerOps_nonceInv ops (mkServer cfg inst) (nonceInv_mkServer cfg inst)) hcount

/-- Configuration and operation list for the C5 witness. -/
def c5Cfg : ServerConfiguration :=
  ServerConfiguration.mk "tcp" 9991 9992 2 1 "env" 1 30 false

/-- RESET_CLIENT, then a STEP, then CLOSE. -/
def c5Ops : List ServerOp :=
  [ServerOp.clientResetOp, ServerOp.stepOp 7, ServerOp.closeOp]

/-- Witness for C5: the three nonce-bearing broadcasts of the concrete run
carry nonces [0, 1, 2]. -/
theorem C5_witness :
    broadcastNonces (runServerOps (mkServer c5Cfg 11) c5Ops) =
      List.map (fun j : Nat => (j : Int))
        (List.range (noncedCommands (runServerOps (mkServer c5Cfg 11) c5Ops)).length) ∧
    broadcastNonces (runServerOps (mkServer c5Cfg 11) c5Ops) = [0, 1, 2] :=
  ⟨(C5_broadcast_nonces_strictly_increasing c5Cfg 11 c5Ops (by decide)).1, by decide⟩

/-! ### C6 / C7 : the worker's stale-nonce filter -/

theorem performReset_command_nonce (env : EnvModel) (w : WorkerState) :
    (performReset env w).1.command_nonce = w.command_nonce := by
  unfold performReset; split <;> rfl

theorem stepEnvFrame_command_nonce (env : EnvModel) (w : WorkerState)
    (payload envId : Nat) :
    (stepEnvFrame env w payload envId).1.command_nonce = w.command_nonce := by
  unfold stepEnvFrame
  split
  split
  · split
    · rename_i w1 rf ops heq
      have hp := performReset_command_nonce env w
      rw [heq] at hp
      exact hp
    · rename_i w1 ops heq
      have hp := performReset_command_nonce env w
      rw [heq] at hp
      exact hp
  · rfl

theorem sendFrame_command_nonce {w : WorkerState} {f : Frame} {out : SendOutcome}
    {sr : SendResult} (h : sendFrame w f out = some sr) :
    sr.state.command_nonce = w.command_nonce ∨
    sr.state.command_nonce = none := by
  unfold sendFrame at h
  cases hw : w.command_nonce with
  | none => rw [hw] at h; exact Option.noConfusion h
  | some n =>
      rw [hw] at h
      dsimp only at h
      cases out with
      | timeoutSend =>
          obtain rfl := (Option.some.inj h).symm
          exact Or.inr rfl
      | timeoutRecv =>
          obtain rfl := (Option.some.inj h).symm
          exact Or.inr rfl
      | delivered resp =>
          cases resp with
          | ok =>
              obtain rfl := (Option.some.inj h).symm
              exact Or.inl hw
          | resetResponse =>
              obtain rfl := (Option.some.inj h).symm
              exact Or.inl rfl
          | softError =>
              obtain rfl := (Option.some.inj h).symm
              exact Or.inl hw
          | okEncourage =>
              obtain rfl := (Option.some.inj h).symm
              exact Or.inr rfl
          | wait =>
              obtain rfl := (Option.some.inj h).symm
              exact Or.inr rfl
          | errorResponse =>
              obtain rfl := (Option.some.inj h).symm
              exact Or.inr rfl

/-- Whatever run_command does, the resulting stored nonce is the old one,
the received command's nonce, or cleared by a client reset. -/
theorem runCommand_nonce_cases (env : EnvModel) (w : WorkerState)
    (message : WorkerCommand) (out : SendOutcome) (r : RunResult)
    (h : runCommand env w message out = some r) :
    r.state.command_nonce = w.command_nonce ∨
    r.state.command_nonce = some message.nonce ∨
    r.state.command_nonce = none := by
  unfold runCommand at h
  cases hw : w.command_nonce with
  | none => rw [hw] at h; exact Option.noConfusion h
  | some stored =>
      rw [hw] at h
      dsimp only at h
      by_cases hlt : message.nonce < stored
      · rw [if_pos hlt] at h
        obtain rfl := (Option.some.inj h).symm
        exact Or.inl hw
      · rw [if_neg hlt] at h
        cases hcmd : message.command with
        | step =>
            rw [hcmd] at h
            dsimp only at h
            cases hact : message.actions with
            | none => rw [hact] at h; exact Option.noConfusion h
            | some payload =>
                rw [hact] at h
                cases henv : w.environment_id with
                | none => rw [henv] at h; exact Option.noConfusion h
                | some envId =>
                    rw [henv] at h
                    dsimp only at h
                    rcases hps : performStep env
                        { w with environment_id := some envId,
                                 command_nonce := some message.nonce } payload envId with
                      ⟨w2, frOpt, ops1⟩
                    rw [hps] at h
                    cases frOpt with
                    | none => exact Option.noConfusion h
                    | some fr =>
                        dsimp only at h
                        cases hs : sendFrame w2 fr out with
                        | none => rw [hs] at h; exact Option.noConfusion h
                        | some sr =>
                            rw [hs] at h
                            dsimp only at h
                            have hw2 : w2.command_nonce = some message.nonce := by
                              have hp := stepEnvFrame_command_nonce env
                                { { w with environment_id := some envId,
                                           command_nonce := some message.nonce } with
                                  was_just_reset := false } payload envId
                              unfold performStep at hps
                              rw [hps] at hp
                              exact hp
                            have hsr := sendFrame_command_nonce hs
                            split at h
                            · rcases hpr : performReset env sr.state with ⟨w3, rf3, ops3⟩
                              rw [hpr] at h
                              obtain rfl := (Option.some.inj h).symm
                              have hp3 := performReset_command_nonce env sr.state
                              rw [hpr] at hp3
                              dsimp only
                              rw [hp3]
                              rcases hsr with hsr | hsr
                              · rw [hsr, hw2]
                                exact Or.inr (Or.inl rfl)
                              · rw [hsr]
                                exact Or.inr (Or.inr rfl)
                            · obtain rfl := (Option.some.inj h).symm
                              dsimp only
                              rcases hsr with hsr | hsr
                              · rw [hsr, hw2]
                                exact Or.inr (Or.inl rfl)
                              · rw [hsr]
                                exact Or.inr (Or.inr rfl)
        | reset =>
            rw [hcmd] at h
            dsimp only at h
            rcases hpr : performReset env
                { w with command_nonce := some message.nonce } with ⟨w2, frOpt, ops1⟩
            rw [hpr] at h
            cases frOpt with
            | none => exact Option.noConfusion h
            | some fr =>
                dsimp only at h
                cases hs : sendFrame w2 fr out with
                | none => rw [hs] at h; exact Option.noConfusion h
                | some sr =>
                    rw [hs] at h
                    obtain rfl := (Option.some.inj h).symm
                    have hw2 : w2.command_nonce = some message.nonce := by
                      have hp := performReset_command_nonce env
                        { w with command_nonce := some message.nonce }
                      rw [hpr] at hp
                      exact hp
                    dsimp only
                    rcases sendFrame_command_nonce hs with hsr | hsr
                    · rw [hsr, hw2]
                      exact Or.inr (Or.inl rfl)
                    · rw [hsr]
                      exact Or.inr (Or.inr rfl)
        | close =>
            rw [hcmd] at h
            obtain rfl := (Option.some.inj h).symm
            exact Or.inl hw
        | resetClient =>
            rw [hcmd] at h
            dsimp only at h
            split at h
            · obtain rfl := (Option.some.inj h).symm
              exact Or.inr (Or.inr rfl)
            · obtain rfl := (Option.some.inj h).symm
              exact Or.inl hw
        | noCommand =>
            rw [hcmd] at h
            obtain rfl := (Option.some.inj h).symm
            exact Or.inl hw
        | wakeUp =>
            rw [hcmd] at h
            obtain rfl := (Option.some.inj h).symm
            exact Or.inl rfl

/-- C6: for an initialized worker within one session, run_command never
decreases the stored command_nonce, and a received command whose nonce is
strictly below the stored one is ignored outright: the worker state is
returned unchanged, no frame is sent and the environment is untouched. -/
theorem C6_worker_nonce_monotonic (env : EnvModel) (w : WorkerState)
    (message : WorkerCommand) (out : SendOutcome) (n : Int)
    (hn : w.command_nonce = some n) :
    (message.nonce < n →
       runCommand env w message out = some (RunResult.mk w false [] [])) ∧
    (∀ r n2, runCommand env w message out = some r →
       r.state.command_nonce = some n2 → n ≤ n2) := by
  constructor
  · intro hlt
    unfold runCommand
    rw [hn]
    dsimp only
    rw [if_pos hlt]
  · intro r n2 hr hn2
    by_cases hlt : message.nonce < n
    · have h1 : runCommand env w message out = some (RunResult.mk w false [] []) := by
        unfold runCommand
        rw [hn]
        dsimp only
        rw [if_pos hlt]
      rw [h1] at hr
      obtain rfl := (Option.some.inj hr).symm
      dsimp only at hn2
      rw [hn] at hn2
      exact le_of_eq (Option.some.inj hn2)
    · rcases runCommand_nonce_cases env w message out r hr with hcase | hcase | hcase
      · rw [hcase, hn] at hn2
        exact le_of_eq (Option.some.inj hn2)
      · rw [hcase] at hn2
        have : message.nonce = n2 := Option.some.inj hn2
        omega
      · rw [hcase] at hn2
        exact Option.noConfusion hn2

/-- A stale STEP for the C6 witness: worker stores nonce 5, command
carries nonce 3. -/
def c6Worker : WorkerState :=
  WorkerState.mk true (some 0) (some 5) (some "env") (some 0) (some 0) (some 5) 0
    (some false) none false (some (Frame.mk 0 0 false 0 0)) false

def c6Env : EnvModel := EnvModel.mk 0 (fun _ _ => (0, 0, false, 0))

def c6Step : WorkerCommand := WorkerCommand.mk CommandKind.step 3 (some 0) 0

/-- Witness for C6: the stale STEP is dropped with no state change, no
frame and no environment call, and the stored nonce does not decrease. -/
theorem C6_witness :
    runCommand c6Env c6Worker c6Step (SendOutcome.delivered ResponseKind.ok) =
      some (RunResult.mk c6Worker false [] []) ∧
    (5 : Int) ≤ 5 :=
  ⟨(C6_worker_nonce_monotonic c6Env c6Worker c6Step
      (SendOutcome.delivered ResponseKind.ok) 5 (by decide)).1 (by decide),
   (C6_worker_nonce_monotonic c6Env c6Worker c6Step
      (SendOutcome.delivered ResponseKind.ok) 5 (by decide)).2
     (RunResult.mk c6Worker false [] []) 5
     ((C6_worker_nonce_monotonic c6Env c6Worker c6Step
        (SendOutcome.delivered ResponseKind.ok) 5 (by decide)).1 (by decide))
     (by decide)⟩

/-- An initialized idle worker that already stores command_nonce 1. -/
def c7Worker : WorkerState :=
  WorkerState.mk true (some 0) (some 5) (some "env") (some 0) (some 0) (some 1) 0
    (some true) (some 3) true (some (Frame.mk 0 0 false 0 0)) false

def c7Env : EnvModel := EnvModel.mk 0 (fun _ _ => (0, 0, false, 0))

/-- The controller's WAKE_UP: _send_wake_up_call leaves the nonce unset, so
it goes out with the proto default 0. -/
def c7Wake : WorkerCommand := WorkerCommand.mk CommandKind.wakeUp 0 none 0

/-- C7 counterexample: an initialized worker with stored command_nonce 1
and is_idle set receives the controller's WAKE_UP (nonce 0); run_command's
stale-nonce check fires first and the command is ignored — is_idle stays
true and idle_timestamp stays set, contradicting the claim that WAKE_UP
clears idle regardless of the stored nonce. -/
theorem C7_counterexample :
    c7Worker.is_idle = some true ∧
    c7Worker.idle_timestamp = some 3 ∧
    runCommand c7Env c7Worker c7Wake (SendOutcome.delivered ResponseKind.ok) =
      some (RunResult.mk c7Worker false [] []) :=
  ⟨by decide, by decide, by decide⟩

/-- C7 (amended): WAKE_UP is subject to run_command's stale-nonce check
like every other command. When its nonce is not below the stored
command_nonce, the worker leaves idle: is_idle is set to false and
idle_timestamp is cleared, with nothing else changed; a WAKE_UP whose
nonce is smaller — as the controller sends it, with the proto-default
nonce 0 — is ignored. Only the pre-initialization drain path
run_command_simple clears idle unconditionally. -/
theorem C7_wakeup_clears_idle (env : EnvModel) (w : WorkerState)
    (message : WorkerCommand) (out : SendOutcome) (n : Int)
    (hn : w.command_nonce = some n) (hcmd : message.command = CommandKind.wakeUp)
    (hge : n ≤ message.nonce) :
    runCommand env w message out =
      some (RunResult.mk { w with is_idle := some false, idle_timestamp := none }
        false [] []) ∧
    (∀ w2, runCommandSimple w (some message) = some w2 →
       w2 = { w with is_idle := some false, idle_timestamp := none }) := by
  constructor
  · unfold runCommand
    rw [hn]
    dsimp only
    rw [if_neg (by omega), hcmd]
  · intro w2 h2
    unfold runCommandSimple at h2
    dsimp only at h2
    rw [hcmd] at h2
    rw [if_pos rfl] at h2
    rw [if_neg (by intro hc; exact CommandKind.noConfusion hc)] at h2
    exact (Option.some.inj h2).symm

/-- An initialized idle worker still at command_nonce 0. -/
def c7Worker0 : WorkerState :=
  WorkerState.mk true (some 0) (some 5) (some "env") (some 0) (some 0) (some 0) 0
    (some true) (some 3) true (some (Frame.mk 0 0 false 0 0)) false

/-- Witness for C7: with stored nonce 0 the controller's WAKE_UP does clear
the idle state. -/
theorem C7_witness :
    runCommand c7Env c7Worker0 c7Wake (SendOutcome.delivered ResponseKind.ok) =
      some (RunResult.mk
        { c7Worker0 with is_idle := some false, idle_timestamp := none } false [] []) :=
  (C7_wakeup_clears_idle c7Env c7Worker0 c7Wake (SendOutcome.delivered ResponseKind.ok) 0
    (by decide) (by decide) (by decide)).1

end DVE
